import Mathlib

/-!
Verification of the gofetch/gohans HTTP request library against its
natural-language specification.

The repository contains two near-identical package variants:
* `gofetch` — `client.go` (`Client.Do` without URL validation, `Request.Do`
  retry loop) and the `TLSConfig` of `src/unnamed/part_003`
  (`Renegotiation: RenegotiateNever`, no `MinVersion` field);
* `gohans` — the client embedded in `src/tls_test.go` (`Client.Do` with a
  `MissingURLError` check and URL parsing), `decodeResponse` of
  `src/unnamed/part_004`, and `src/tls.go`'s `TLSConfig`
  (`Renegotiation: RenegotiateOnceAsClient`, `MinVersion: VersionTLS12`).

Both variants are shallowly embedded below.  Effectful collaborators
(the JSON encoder on an opaque body value, `http.NewRequestWithContext`,
`http.Client.Do`, `url.Parse`, the file system of `TLSConfig`) are modelled
as explicit function parameters of the client/file-system records; response
bytes are `List Nat`; Go maps are association lists (plus an explicit heap
for the aliasing claim about the package-level `defaultHeaders` map).
-/

namespace GoHTTP

/-- Response/request bodies as byte lists (`[]byte`). -/
abbrev Bytes := List Nat

/-- A Go `map[string]string`, as an association list without duplicate keys
(insertion overwrites). -/
abbrev HeaderMap := List (String × String)

/-- Map assignment `m[k] = v`: overwrite the binding if present, else append. -/
def headerInsert (h : HeaderMap) (k v : String) : HeaderMap :=
  match h with
  | [] => [(k, v)]
  | (k', v') :: rest =>
    if k' = k then (k, v) :: rest else (k', v') :: headerInsert rest k v

/-- Map lookup returning `none` when the key is absent. -/
def headerLookup (h : HeaderMap) (k : String) : Option String :=
  match h with
  | [] => none
  | (k', v') :: rest => if k' = k then some v' else headerLookup rest k

/-- `http.Header.Get`-like lookup: the empty string when the key is absent. -/
def headerGet (h : HeaderMap) (k : String) : String :=
  (headerLookup h k).getD ""

/-- The error values that the library's operations can return (Go `error`). -/
inductive GoError where
  /-- `json.Encoder.Encode` failure (e.g. a non-finite float in the body). -/
  | encodeError (msg : String)
  /-- `http.NewRequestWithContext` failure (e.g. invalid method token). -/
  | buildError (msg : String)
  /-- `http.Client.Do` failure (network, scheme, timeout). -/
  | transportError (msg : String)
  /-- `json.Decoder.Decode` failure, carrying the decoder's message
  (`"EOF"` for empty input). -/
  | jsonError (msg : String)
  /-- The `UnexpectedStatusCodeError` sentinel. -/
  | unexpectedStatusCode
  /-- The `MissingURLError` sentinel (gohans only). -/
  | missingURL
  /-- `url.Parse` failure (gohans only). -/
  | parseError (msg : String)
  /-- The `errors.New ("invalid content type")` of `decodeResponse`. -/
  | invalidContentType
  /-- `TLSConfig` failures (missing paths, unreadable/unparsable material). -/
  | tlsError (msg : String)
deriving DecidableEq, Repr

/-- The behaviour of `json.NewDecoder(stream).Decode(&target)` for one
concrete target: given the full byte sequence the stream can deliver, it
yields how many bytes the decoder reads from the stream and the decode
outcome (`none` = success).  The decoder is opaque because the targets are
`any`; the empty-input case is handled uniformly by `jsonDecodeStream`. -/
abbrev Decoder := Bytes → Nat × Option GoError

/-- `json.NewDecoder(stream).Decode(&target)` on a stream whose full content
is `body`.  On empty input the decoder's first refill hits end of input and
`Decode` returns `io.EOF` before ever consulting the target; otherwise the
target-specific behaviour `d` applies. -/
def jsonDecodeStream (d : Decoder) (body : Bytes) : Nat × Option GoError :=
  if body = [] then (0, some (.jsonError "EOF")) else d body

/-- An `*http.Response` as seen by the client code: status plus body bytes. -/
structure Response where
  statusCode : Nat
  body : Bytes
deriving DecidableEq, Repr

/-- The outgoing `*http.Request` handed to `httpClient.Do`. -/
structure OutgoingRequest where
  method : String
  url : String
  headers : HeaderMap
  bodyBytes : Bytes
deriving DecidableEq, Repr

/-- The observable outcome of one `Client.Do` call: the returned byte slice
(`none` = Go `nil`), the returned error, whether the JSON encoder was
invoked, whether `httpClient.Do` was invoked, and the status code recorded
on the request descriptor (`none` = left untouched). -/
structure DoOutcome where
  body : Option Bytes
  err : Option GoError
  encoderInvoked : Bool
  dispatched : Bool
  statusCode : Option Nat
deriving DecidableEq, Repr

end GoHTTP

namespace Gofetch

open GoHTTP

/-- The `gofetch.Client` of `src/client.go`: its effectful collaborators as
explicit behaviours.  `encode` interprets the opaque `Body` value (an `any`,
modelled as a token) as `json.Encoder.Encode` would; `newRequest` is
`http.NewRequestWithContext`'s success/failure on method and URL;
`dispatch` is `httpClient.Do`. -/
structure Client where
  encode : Nat → Except String Bytes
  newRequest : String → String → Except String Unit
  dispatch : OutgoingRequest → Except String Response

/-- The `gofetch.Request` of `src/client.go`: method, URL (the `String()`
of its `url.URL` field; empty when no URL was set), headers, optional body
token, retry count, expected status code, and the decode behaviours of the
`errorResponse` and `response` targets. -/
structure Request where
  Method : String
  URL : String
  Headers : HeaderMap
  Body : Option Nat
  retries : Nat
  expectedStatusCode : Nat
  errDecode : Decoder
  respDecode : Decoder

/-- Lines 74–81 of `src/client.go`: encode the body into the buffer `br`
when one is set (an encode failure aborts with that error); no body leaves
the buffer empty. -/
def Client.encodeStage (c : Client) (r : Request) : Except GoError Bytes :=
  match r.Body with
  | none => .ok []
  | some b =>
    match c.encode b with
    | .error m => .error (.encodeError m)
    | .ok bs => .ok bs

/-- `gofetch.Client.Do` (`src/client.go` lines 73–124): encode the body,
build the request, apply the descriptor's headers, dispatch, then tee the
response body (`io.TeeReader(resp.Body, &buf)`) so that `buf` accumulates
exactly the bytes the JSON decoder reads, record the status code, and run
the status-gated dual decode.  `buf.Bytes()` is therefore the prefix of the
response body of length equal to the decoder's stream consumption. -/
def Client.Do (c : Client) (r : Request) : DoOutcome :=
  match c.encodeStage r with
  | .error e => ⟨none, some e, r.Body.isSome, false, none⟩
  | .ok bodyBytes =>
    match c.newRequest r.Method r.URL with
    | .error m => ⟨none, some (.buildError m), r.Body.isSome, false, none⟩
    | .ok _ =>
      match c.dispatch ⟨r.Method, r.URL, r.Headers, bodyBytes⟩ with
      | .error m => ⟨none, some (.transportError m), r.Body.isSome, true, none⟩
      | .ok resp =>
        if resp.statusCode ≠ r.expectedStatusCode then
          match jsonDecodeStream r.errDecode resp.body with
          | (k, some e) =>
            ⟨some (resp.body.take k), some e, r.Body.isSome, true,
              some resp.statusCode⟩
          | (k, none) =>
            ⟨some (resp.body.take k), some .unexpectedStatusCode,
              r.Body.isSome, true, some resp.statusCode⟩
        else
          match jsonDecodeStream r.respDecode resp.body with
          | (k, some e) =>
            ⟨some (resp.body.take k), some e, r.Body.isSome, true,
              some resp.statusCode⟩
          | (k, none) =>
            ⟨some (resp.body.take k), none, r.Body.isSome, true,
              some resp.statusCode⟩

/-- What the abstract `RequestClient.Do` of the `RequestClient` interface
returns: `([]byte, error)`. -/
abbrev DoRes := Option Bytes × Option GoError

/-- The retry loop body of `gofetch.Request.Do` (`src/client.go` lines
248–258), with the abstract client modelled as the result of its `k`-th
invocation.  Arguments: remaining loop iterations, loop index `i`, index of
the next client call, the descriptor's current header map (mutated by
`AddHeader` each iteration), and the accumulated trace of header maps as
seen by each performed call.  When the iterations are exhausted the
trailing `return c.Do(ctx, r)` of line 258 performs one more call with the
headers left by the last iteration. -/
def doRetry (cl : Nat → DoRes) :
    Nat → Nat → Nat → HeaderMap → List HeaderMap → List HeaderMap × DoRes
  | 0, _, callIdx, h, acc => (acc ++ [h], cl callIdx)
  | fuel + 1, i, callIdx, h, acc =>
    let h' := headerInsert h "Retry-Count" (toString i)
    match cl callIdx with
    | (body, none) => (acc ++ [h'], (body, none))
    | (_, some _) => doRetry cl fuel (i + 1) (callIdx + 1) h' (acc ++ [h'])

/-- `gofetch.Request.Do` (`src/client.go` lines 247–259): if `retries > 0`,
loop up to `retries` times, each time overwriting the `Retry-Count` header
with the zero-based loop index and returning on the first call with no
error; in every case control that leaves the loop (or skips it when
`retries = 0`) falls through to `return c.Do(ctx, r)`.  Returns the trace
of header maps seen by each performed call together with the returned
`([]byte, error)`. -/
def Request.Do (r : Request) (cl : Nat → DoRes) : List HeaderMap × DoRes :=
  doRetry cl r.retries 0 0 r.Headers []

end Gofetch

namespace Gofetch

open GoHTTP

/-! ### Heap-level view of `NewRequest` and the package-level
`defaultHeaders` map

Go maps are reference values.  `src/client.go` line 178 stores the
package-level `defaultHeaders` map itself in every new request
(`Headers: defaultHeaders`), so descriptor construction allocates nothing
and all descriptors alias one shared map.  The heap holds the map contents;
a descriptor holds a reference (an index into the heap). -/

/-- Contents of the package-level `defaultHeaders` variable
(`src/client.go` lines 134–139). -/
def defaultHeaders : HeaderMap :=
  [("Content-Type", "application/json"), ("Accept", "application/json")]

/-- The mutable store of header maps; a map reference is an index. -/
structure Heap where
  maps : List HeaderMap
deriving DecidableEq, Repr

/-- The initial heap at package initialisation: only the `defaultHeaders`
map exists, at reference `0`. -/
def initHeap : Heap := ⟨[defaultHeaders]⟩

/-- The reference held by the package-level `defaultHeaders` variable. -/
def defaultHeadersRef : Nat := 0

/-- A request descriptor at the heap level: its `Headers` field is a map
reference. -/
structure RequestRef where
  Method : String
  headersRef : Nat
  expectedStatusCode : Nat
  retries : Nat
deriving DecidableEq, Repr

/-- `gofetch.NewRequest` (`src/client.go` lines 173–180): the new
descriptor's `Headers` field is assigned the package-level `defaultHeaders`
map reference itself — no copy of the map is made, so the heap is
unchanged. -/
def NewRequest (h : Heap) : Heap × RequestRef :=
  (h, { Method := "GET", headersRef := defaultHeadersRef,
        expectedStatusCode := 200, retries := 0 })

/-- `gofetch.Request.AddHeader` (`src/client.go` lines 239–243):
`r.Headers[key] = value`, a mutation of the referenced map in the heap. -/
def Heap.addHeader (h : Heap) (r : RequestRef) (k v : String) : Heap :=
  ⟨h.maps.set r.headersRef (headerInsert (h.maps.getD r.headersRef []) k v)⟩

/-- `gofetch.Request.SetAuthToken` (`src/client.go` lines 190–194):
`r.Headers["Authorization"] = "Bearer " + token`. -/
def Heap.setAuthToken (h : Heap) (r : RequestRef) (token : String) : Heap :=
  h.addHeader r "Authorization" ("Bearer " ++ token)

/-- Read `r.Headers[k]` through the heap. -/
def Heap.getHeader (h : Heap) (r : RequestRef) (k : String) : Option String :=
  headerLookup (h.maps.getD r.headersRef []) k

end Gofetch

namespace Gohans

open GoHTTP

/-- The `gohans.Client` embedded in `src/tls_test.go` (lines 242–262 of
that file): like the gofetch one, plus the behaviour of `url.Parse` on the
descriptor's URL string (returning the `String()` of the parsed URL on
success). -/
structure Client where
  parseURL : String → Except String String
  encode : Nat → Except String Bytes
  newRequest : String → String → Except String Unit
  dispatch : OutgoingRequest → Except String Response

/-- The `gohans.Request` descriptor: its `URL` field is a plain string
(empty when never set). -/
structure Request where
  Method : String
  URL : String
  Headers : HeaderMap
  Body : Option Nat
  retries : Nat
  expectedStatusCode : Nat
  errDecode : Decoder
  respDecode : Decoder

/-- The body-encoding step of `gohans.Client.Do` (identical to the gofetch
one). -/
def Client.encodeStage (c : Client) (r : Request) : Except GoError Bytes :=
  match r.Body with
  | none => .ok []
  | some b =>
    match c.encode b with
    | .error m => .error (.encodeError m)
    | .ok bs => .ok bs

/-- `gohans.Client.Do` (embedded in `src/tls_test.go`, lines 301–366):
first fail with `MissingURLError` if `r.URL == ""`, then parse the URL,
then encode the body, build the request, dispatch, and run the same teed
status-gated dual decode as the gofetch variant. -/
def Client.Do (c : Client) (r : Request) : DoOutcome :=
  if r.URL = "" then ⟨none, some .missingURL, false, false, none⟩
  else
    match c.parseURL r.URL with
    | .error m => ⟨none, some (.parseError m), false, false, none⟩
    | .ok u =>
      match c.encodeStage r with
      | .error e => ⟨none, some e, r.Body.isSome, false, none⟩
      | .ok bodyBytes =>
        match c.newRequest r.Method u with
        | .error m => ⟨none, some (.buildError m), r.Body.isSome, false, none⟩
        | .ok _ =>
          match c.dispatch ⟨r.Method, u, r.Headers, bodyBytes⟩ with
          | .error m =>
            ⟨none, some (.transportError m), r.Body.isSome, true, none⟩
          | .ok resp =>
            if resp.statusCode ≠ r.expectedStatusCode then
              match jsonDecodeStream r.errDecode resp.body with
              | (k, some e) =>
                ⟨some (resp.body.take k), some e, r.Body.isSome, true,
                  some resp.statusCode⟩
              | (k, none) =>
                ⟨some (resp.body.take k), some .unexpectedStatusCode,
                  r.Body.isSome, true, some resp.statusCode⟩
            else
              match jsonDecodeStream r.respDecode resp.body with
              | (k, some e) =>
                ⟨some (resp.body.take k), some e, r.Body.isSome, true,
                  some resp.statusCode⟩
              | (k, none) =>
                ⟨some (resp.body.take k), none, r.Body.isSome, true,
                  some resp.statusCode⟩

/-- An `*http.Response` as consumed by `decodeResponse`: its header map and
its body bytes. -/
structure HResponse where
  headers : HeaderMap
  body : Bytes

/-- `gohans.decodeResponse` (`src/unnamed/part_004`, lines 292–301): switch
on the exact string `resp.Header.Get("Content-Type")` (the empty string
when the header is absent); `"application/json"` decodes the body as JSON,
`"application/xml"` as XML, anything else returns
`errors.New("invalid content type")`.  The JSON and XML decode behaviours
for the opaque `result` target are the parameters `jd` and `xd` (`none` =
success). -/
def decodeResponse (jd xd : Bytes → Option GoError) (resp : HResponse) :
    Option GoError :=
  let ct := headerGet resp.headers "Content-Type"
  if ct = "application/json" then jd resp.body
  else if ct = "application/xml" then xd resp.body
  else some .invalidContentType

end Gohans

namespace GoHTTP

/-! ### TLS configuration construction (both variants) -/

/-- `tls.Config.Renegotiation` values used by the two variants. -/
inductive RenegPolicy where
  | renegotiateNever
  | renegotiateOnceAsClient
deriving DecidableEq, Repr

/-- `tls.VersionTLS12` (0x0303). -/
def versionTLS12 : Nat := 771

/-- The observable fields of the built `*tls.Config`.  `minVersion = 0`
is Go's zero value, meaning no minimum protocol version was pinned by the
configuration. -/
structure TLSConf where
  insecureSkipVerify : Bool
  renegotiation : RenegPolicy
  minVersion : Nat
  rootCAsSet : Bool
  certCount : Nat
deriving DecidableEq, Repr

/-- The file system and certificate machinery `TLSConfig` interacts with:
`os.ReadFile`, `x509.CertPool.AppendCertsFromPEM` (whether any PEM
certificate parses), and `tls.LoadX509KeyPair`. -/
structure FS where
  readFile : String → Except String Bytes
  appendCertsFromPEM : Bytes → Bool
  loadX509KeyPair : String → String → Except String Unit

end GoHTTP

namespace Gohans

open GoHTTP

/-- `gohans.TLSConfig` (`src/tls.go` lines 14–52): reject empty cert/key
paths; start from a config with the caller's `InsecureSkipVerify`,
`Renegotiation: RenegotiateOnceAsClient` and `MinVersion: VersionTLS12`;
optionally read and pool the CA; load the cert/key pair. -/
def TLSConfig (fs : FS) (tlsCA tlsCert tlsKey : String)
    (insecureSkipVerify : Bool) : Except GoError TLSConf :=
  if tlsKey = "" ∨ tlsCert = "" then
    .error (.tlsError "TLS Key and Cert file paths not provided, TLS not configured")
  else
    let conf : TLSConf :=
      { insecureSkipVerify := insecureSkipVerify,
        renegotiation := .renegotiateOnceAsClient,
        minVersion := versionTLS12, rootCAsSet := false, certCount := 0 }
    let withCA : Except GoError TLSConf :=
      if tlsCA ≠ "" then
        match fs.readFile tlsCA with
        | .error _ => .error (.tlsError ("could not read certificate " ++ tlsCA))
        | .ok pem =>
          if fs.appendCertsFromPEM pem then
            .ok { conf with rootCAsSet := true }
          else
            .error (.tlsError ("could not parse any PEM certificates " ++ tlsCA))
      else .ok conf
    match withCA with
    | .error e => .error e
    | .ok conf' =>
      if tlsCert ≠ "" ∧ tlsKey ≠ "" then
        match fs.loadX509KeyPair tlsCert tlsKey with
        | .error _ =>
          .error (.tlsError ("could not load keypair " ++ tlsCert ++ ":" ++ tlsKey))
        | .ok _ => .ok { conf' with certCount := 1 }
      else .ok conf'

end Gohans

namespace Gofetch

open GoHTTP

/-- `gofetch.TLSConfig` (`src/unnamed/part_003` lines 14–47): identical
control flow to the gohans variant, but the config literal sets only
`InsecureSkipVerify` and `Renegotiation: RenegotiateNever` — `MinVersion`
is left at its zero value (no minimum pinned). -/
def TLSConfig (fs : FS) (tlsCA tlsCert tlsKey : String)
    (insecureSkipVerify : Bool) : Except GoError TLSConf :=
  if tlsKey = "" ∨ tlsCert = "" then
    .error (.tlsError "TLS Key and Cert file paths not provided, TLS not configured")
  else
    let conf : TLSConf :=
      { insecureSkipVerify := insecureSkipVerify,
        renegotiation := .renegotiateNever,
        minVersion := 0, rootCAsSet := false, certCount := 0 }
    let withCA : Except GoError TLSConf :=
      if tlsCA ≠ "" then
        match fs.readFile tlsCA with
        | .error _ => .error (.tlsError ("could not read certificate " ++ tlsCA))
        | .ok pem =>
          if fs.appendCertsFromPEM pem then
            .ok { conf with rootCAsSet := true }
          else
            .error (.tlsError ("could not parse any PEM certificates " ++ tlsCA))
      else .ok conf
    match withCA with
    | .error e => .error e
    | .ok conf' =>
      if tlsCert ≠ "" ∧ tlsKey ≠ "" then
        match fs.loadX509KeyPair tlsCert tlsKey with
        | .error _ =>
          .error (.tlsError ("could not load keypair " ++ tlsCert ++ ":" ++ tlsKey))
        | .ok _ => .ok { conf' with certCount := 1 }
      else .ok conf'

end Gofetch

namespace GoHTTP

/-! ### Stream consumption of `encoding/json.Decoder` for object bodies

`json.NewDecoder(tee).Decode(&target)` does not read the stream to the
end: it refills its buffer from the reader in chunks of (at least) 512
bytes (`encoding/json`'s `minRead`) and stops as soon as its scanner has
seen one complete top-level JSON value, leaving the rest of the stream
unread.  Through `io.TeeReader` the capture buffer therefore receives only
the bytes of the chunks actually read.  `scanObjEnd` finds the position at
which the scanner reports a complete top-level object (the scanner steps
the byte AFTER the closing brace to reach its end state), tracking string
literals and escapes; `jsonStreamRead` turns that into the number of bytes
drawn from the stream: whole 512-byte chunks until the end position is
covered, and the whole stream when no complete value occurs in it. -/

/-- Scan for the end of a single top-level JSON object: byte 34 is `"`,
92 is a backslash, 123/125 are the braces.  Arguments: remaining bytes,
current index, brace depth, inside-string flag, escape flag.  Returns the
index of the byte after the object completes (the byte whose scan step
yields the scanner's end state). -/
def scanObjEnd : List Nat → Nat → Nat → Bool → Bool → Option Nat
  | [], _, _, _, _ => none
  | c :: rest, i, depth, inStr, esc =>
    if inStr then
      if esc then scanObjEnd rest (i + 1) depth true false
      else if c = 92 then scanObjEnd rest (i + 1) depth true true
      else if c = 34 then scanObjEnd rest (i + 1) depth false false
      else scanObjEnd rest (i + 1) depth true false
    else if c = 34 then scanObjEnd rest (i + 1) depth true false
    else if c = 123 then scanObjEnd rest (i + 1) (depth + 1) false false
    else if c = 125 then
      if depth = 1 then some (i + 1)
      else scanObjEnd rest (i + 1) (depth - 1) false false
    else scanObjEnd rest (i + 1) depth false false

/-- Number of bytes `json.Decoder.Decode` draws from a stream whose full
content is `body` (an object-valued body): 512-byte refills until the
buffer covers the byte at which the scanner completes, all of the stream
when the value only completes at end of input or never. -/
def jsonStreamRead (body : Bytes) : Nat :=
  match scanObjEnd body 0 0 false false with
  | some endIdx => min body.length (512 * ((endIdx + 1 + 511) / 512))
  | none => body.length

/-- Decode behaviour of a target that accepts any JSON object (such as a
`map[string]interface{}`): the decode succeeds after drawing
`jsonStreamRead` bytes from the stream. -/
def objDecoder : Decoder := fun b => (jsonStreamRead b, none)

end GoHTTP

/-- Sanity: a 7-byte object body that only completes at end of input is
read in full. -/
theorem jsonStreamRead_whole_body :
    GoHTTP.jsonStreamRead [123, 34, 97, 34, 58, 49, 125] = 7 := by decide

set_option maxRecDepth 10000 in
/-- Sanity: when the object completes inside the first 512-byte refill of a
607-byte stream, only that chunk is drawn from the stream. -/
theorem jsonStreamRead_one_chunk :
    GoHTTP.jsonStreamRead
      ([123, 34, 97, 34, 58, 49, 125] ++ List.replicate 600 32) = 512 := by
  decide

/-! ## Claim theorems -/

section ClaimC4

open GoHTTP Gofetch

/-- First descriptor created by `NewRequest` on the fresh heap. -/
def c4Step1 : Gofetch.Heap × Gofetch.RequestRef := Gofetch.NewRequest Gofetch.initHeap

/-- Second descriptor created by `NewRequest`. -/
def c4Step2 : Gofetch.Heap × Gofetch.RequestRef := Gofetch.NewRequest c4Step1.1

/-- Heap after `d1.AddHeader("X-Test", "y")`. -/
def c4Heap3 : Gofetch.Heap := c4Step2.1.addHeader c4Step1.2 "X-Test" "y"

end ClaimC4

/-- C4: the claim is false on the code — `NewRequest` stores the
package-level `defaultHeaders` map itself in every descriptor
(`Headers: defaultHeaders`, `src/client.go` line 178), so two descriptors
alias one shared map: before `AddHeader` the second descriptor has no
`X-Test` header, and after `d1.AddHeader("X-Test", "y")` the second
descriptor (created earlier and never touched) observes the new header. -/
theorem c4_default_headers_shared :
    c4Step2.1.getHeader c4Step2.2 "X-Test" = none ∧
      c4Heap3.getHeader c4Step2.2 "X-Test" = some "y" ∧
      c4Step1.2.headersRef = c4Step2.2.headersRef := by
  decide

section ClaimC1

open GoHTTP Gofetch

/-- An abstract `RequestClient` whose `Do` fails on every call. -/
def c1FailingClient : Nat → Gofetch.DoRes :=
  fun _ => (none, some (.transportError "connection refused"))

/-- A descriptor with `EnableRetries(2)` and the default headers. -/
def c1Request : Gofetch.Request :=
  { Method := "GET", URL := "http://server/test",
    Headers := Gofetch.defaultHeaders, Body := none, retries := 2,
    expectedStatusCode := 200,
    errDecode := fun _ => (0, none), respDecode := fun _ => (0, none) }

end ClaimC1

/-- C1: the claim is false on the code — with retry count 2 and a client
that errors on every attempt, `Request.Do` performs THREE calls, not at
most two: after the two loop iterations fail, control falls through to the
trailing `return c.Do(ctx, r)` (`src/client.go` line 258), which dispatches
once more with the stale `Retry-Count: 1` header left by the second loop
iteration, and that third call's result is what is returned. -/
theorem c1_retry_extra_attempt :
    (c1Request.Do c1FailingClient).1.length = 3 ∧
      GoHTTP.headerLookup ((c1Request.Do c1FailingClient).1.getD 1 [])
        "Retry-Count" = some "1" ∧
      GoHTTP.headerLookup ((c1Request.Do c1FailingClient).1.getD 2 [])
        "Retry-Count" = some "1" ∧
      (c1Request.Do c1FailingClient).2 =
        (none, some (.transportError "connection refused")) := by
  decide

section ClaimC3

open GoHTTP Gofetch

/-- A 607-byte 200-response body: the JSON object left-brace `"a"` colon
`1` right-brace (7 bytes) followed by 600 trailing spaces (all valid JSON
whitespace, so the full body is the exact server-sent payload of a
well-formed JSON response). -/
def c3Body : GoHTTP.Bytes :=
  [123, 34, 97, 34, 58, 49, 125] ++ List.replicate 600 32

/-- A client whose dispatch returns status 200 with `c3Body`. -/
def c3Client : Gofetch.Client :=
  { encode := fun _ => .ok [],
    newRequest := fun _ _ => .ok (),
    dispatch := fun _ => .ok ⟨200, c3Body⟩ }

/-- A descriptor expecting 200 whose success target accepts any JSON
object (a `map[string]interface{}`-like target). -/
def c3Request : Gofetch.Request :=
  { Method := "GET", URL := "http://server/test",
    Headers := Gofetch.defaultHeaders, Body := none, retries := 0,
    expectedStatusCode := 200,
    errDecode := GoHTTP.objDecoder, respDecode := GoHTTP.objDecoder }

end ClaimC3

set_option maxRecDepth 40000 in
/-- C3: the claim is false on the code — for the 607-byte body `c3Body`
the JSON decoder succeeds after drawing only the first 512-byte refill
chunk from the teed stream, so `Client.Do` reports success (`err = none`)
yet returns a 512-byte capture buffer, not the exact 607 server-sent
bytes: `io.TeeReader` copies only what the decoder reads. -/
theorem c3_raw_bytes_truncated :
    (Gofetch.Client.Do c3Client c3Request).err = none ∧
      (Gofetch.Client.Do c3Client c3Request).statusCode = some 200 ∧
      ((Gofetch.Client.Do c3Client c3Request).body.getD []).length = 512 ∧
      c3Body.length = 607 ∧
      (Gofetch.Client.Do c3Client c3Request).body ≠ some c3Body := by
  decide

/-- C2: for every executed send that receives a response (encoding, request
construction and dispatch all succeeded), `Client.Do` behaves exactly as
the spec's step 7 describes: on a status mismatch the body is decoded into
the error target — a decode failure returns the captured bytes with that
failure (taking precedence over the mismatch error), a decode success
returns them with `UnexpectedStatusCodeError`; on a status match the body
is decoded into the success target — a decode failure returns the captured
bytes with that failure, a success returns them with no error. -/
theorem c2_status_gated_dual_decode (c : Gofetch.Client) (r : Gofetch.Request)
    (resp : GoHTTP.Response) (bs : GoHTTP.Bytes)
    (hEnc : c.encodeStage r = .ok bs)
    (hBuild : c.newRequest r.Method r.URL = .ok ())
    (hDisp : c.dispatch ⟨r.Method, r.URL, r.Headers, bs⟩ = .ok resp) :
    (∀ k e, resp.statusCode ≠ r.expectedStatusCode →
        GoHTTP.jsonDecodeStream r.errDecode resp.body = (k, some e) →
        Gofetch.Client.Do c r =
          ⟨some (resp.body.take k), some e, r.Body.isSome, true,
            some resp.statusCode⟩) ∧
    (∀ k, resp.statusCode ≠ r.expectedStatusCode →
        GoHTTP.jsonDecodeStream r.errDecode resp.body = (k, none) →
        Gofetch.Client.Do c r =
          ⟨some (resp.body.take k), some .unexpectedStatusCode, r.Body.isSome,
            true, some resp.statusCode⟩) ∧
    (∀ k e, resp.statusCode = r.expectedStatusCode →
        GoHTTP.jsonDecodeStream r.respDecode resp.body = (k, some e) →
        Gofetch.Client.Do c r =
          ⟨some (resp.body.take k), some e, r.Body.isSome, true,
            some resp.statusCode⟩) ∧
    (∀ k, resp.statusCode = r.expectedStatusCode →
        GoHTTP.jsonDecodeStream r.respDecode resp.body = (k, none) →
        Gofetch.Client.Do c r =
          ⟨some (resp.body.take k), none, r.Body.isSome, true,
            some resp.statusCode⟩) := by
  refine ⟨fun k e hst hdec => ?_, fun k hst hdec => ?_,
    fun k e hst hdec => ?_, fun k hst hdec => ?_⟩ <;>
    simp [Gofetch.Client.Do, hEnc, hBuild, hDisp, hst, hdec]

section ClaimC2

open GoHTTP Gofetch

/-- A client returning a 500 response with body `[123]` (a single `{`). -/
def c2Client : Gofetch.Client :=
  { encode := fun _ => .ok [],
    newRequest := fun _ _ => .ok (),
    dispatch := fun _ => .ok ⟨500, [123]⟩ }

/-- A descriptor expecting 200 whose error target's decode fails. -/
def c2Request : Gofetch.Request :=
  { Method := "GET", URL := "http://server/test",
    Headers := Gofetch.defaultHeaders, Body := none, retries := 0,
    expectedStatusCode := 200,
    errDecode := fun b => (b.length, some (.jsonError "unexpected EOF")),
    respDecode := fun _ => (0, none) }

end ClaimC2

/-- C2 witness: a concrete mismatching (500 vs expected 200) response whose
error-target decode fails — the captured byte is returned together with the
decode failure, which takes precedence over the mismatch error. -/
theorem c2_witness :
    Gofetch.Client.Do c2Client c2Request =
      ⟨some [123], some (.jsonError "unexpected EOF"), false, true,
        some 500⟩ := by
  have h := c2_status_gated_dual_decode c2Client c2Request ⟨500, [123]⟩ []
    rfl rfl rfl
  simpa using h.1 1 (.jsonError "unexpected EOF") (by decide) rfl

/-- C10: for every send whose response has the expected status code but an
empty (zero-byte) body, `Client.Do` returns the empty captured bytes with
the decoder's `EOF` failure rather than no error — regardless of which
success-decode target (if any) was configured, since `json.Decoder.Decode`
hits end of input before consulting the target — so an empty-body success
response is never reported as success. -/
theorem c10_empty_body_is_decode_error (c : Gofetch.Client)
    (r : Gofetch.Request) (bs : GoHTTP.Bytes)
    (hEnc : c.encodeStage r = .ok bs)
    (hBuild : c.newRequest r.Method r.URL = .ok ())
    (hDisp : c.dispatch ⟨r.Method, r.URL, r.Headers, bs⟩ =
      .ok ⟨r.expectedStatusCode, []⟩) :
    Gofetch.Client.Do c r =
      ⟨some [], some (.jsonError "EOF"), r.Body.isSome, true,
        some r.expectedStatusCode⟩ ∧
      (Gofetch.Client.Do c r).err ≠ none := by
  have h : Gofetch.Client.Do c r =
      ⟨some [], some (.jsonError "EOF"), r.Body.isSome, true,
        some r.expectedStatusCode⟩ := by
    simp [Gofetch.Client.Do, hEnc, hBuild, hDisp, GoHTTP.jsonDecodeStream]
  exact ⟨h, by simp [h]⟩

section ClaimC10

open GoHTTP Gofetch

/-- A client returning a 200 response with a zero-byte body. -/
def c10Client : Gofetch.Client :=
  { encode := fun _ => .ok [],
    newRequest := fun _ _ => .ok (),
    dispatch := fun _ => .ok ⟨200, []⟩ }

/-- A descriptor expecting 200 with no configured success target: the
default `response` field is `nil`, whose decode behaviour is irrelevant
because the decoder fails with `EOF` before consulting it. -/
def c10Request : Gofetch.Request :=
  { Method := "GET", URL := "http://server/test",
    Headers := Gofetch.defaultHeaders, Body := none, retries := 0,
    expectedStatusCode := 200,
    errDecode := fun _ => (0, none), respDecode := fun _ => (0, none) }

end ClaimC10

/-- C10 witness: the concrete empty-body 200 response yields empty bytes
and the `EOF` decode failure. -/
theorem c10_witness :
    Gofetch.Client.Do c10Client c10Request =
      ⟨some [], some (.jsonError "EOF"), false, true, some 200⟩ ∧
      (Gofetch.Client.Do c10Client c10Request).err ≠ none := by
  have h := c10_empty_body_is_decode_error c10Client c10Request []
    rfl rfl rfl
  exact h

/-- C6: for every descriptor whose body value is not JSON-serializable
(the JSON encoder rejects it, e.g. a non-finite float), `Client.Do`
returns `nil` bytes together with the encoding error, and the failure
aborts the call before `httpClient.Do` is ever invoked. -/
theorem c6_encode_failure_aborts (c : Gofetch.Client) (r : Gofetch.Request)
    (b : Nat) (m : String)
    (hBody : r.Body = some b)
    (hEnc : c.encode b = .error m) :
    Gofetch.Client.Do c r = ⟨none, some (.encodeError m), true, false, none⟩ := by
  simp [Gofetch.Client.Do, Gofetch.Client.encodeStage, hBody, hEnc]

section ClaimC6

open GoHTTP Gofetch

/-- A client whose JSON encoder rejects every body value, as
`json.Encoder.Encode` does for a struct containing `math.Inf(0)`. -/
def c6Client : Gofetch.Client :=
  { encode := fun _ => .error "json: unsupported value: +Inf",
    newRequest := fun _ _ => .ok (),
    dispatch := fun _ => .ok ⟨200, []⟩ }

/-- A descriptor carrying a body value (token `0`), standing for
`struct{ A float64 }{A: math.Inf(0)}`. -/
def c6Request : Gofetch.Request :=
  { Method := "GET", URL := "http://localhost",
    Headers := Gofetch.defaultHeaders, Body := some 0, retries := 0,
    expectedStatusCode := 200,
    errDecode := fun _ => (0, none), respDecode := fun _ => (0, none) }

end ClaimC6

/-- C6 witness: the concrete non-encodable body aborts with the encoding
error, `nil` bytes, and no dispatch. -/
theorem c6_witness :
    Gofetch.Client.Do c6Client c6Request =
      ⟨none, some (.encodeError "json: unsupported value: +Inf"), true,
        false, none⟩ :=
  c6_encode_failure_aborts c6Client c6Request 0
    "json: unsupported value: +Inf" rfl rfl

/-- C5 (amended): in the gohans variant, `Client.Do` on a descriptor whose
URL is empty returns `MissingURLError` and `nil` bytes, before URL parsing,
body encoding, request construction, or any dispatch. -/
theorem c5_missing_url_gohans (c : Gohans.Client) (r : Gohans.Request)
    (hURL : r.URL = "") :
    Gohans.Client.Do c r = ⟨none, some .missingURL, false, false, none⟩ := by
  simp [Gohans.Client.Do, hURL]

section ClaimC5

open GoHTTP

/-- A gohans client over any transport behaviours (they are never reached
for an empty URL). -/
def c5Client : Gohans.Client :=
  { parseURL := fun u => .ok u,
    encode := fun _ => .ok [],
    newRequest := fun _ _ => .ok (),
    dispatch := fun _ => .ok ⟨200, []⟩ }

/-- A gohans descriptor on which no URL was ever set. -/
def c5Request : Gohans.Request :=
  { Method := "GET", URL := "", Headers := Gofetch.defaultHeaders,
    Body := some 0, retries := 0, expectedStatusCode := 200,
    errDecode := fun _ => (0, none), respDecode := fun _ => (0, none) }

/-- The gofetch client faced with an empty URL, with the Go standard
library's actual behaviours: `json.Encoder.Encode` succeeds on the set
body, `http.NewRequestWithContext(ctx, "GET", "", body)` succeeds
(`url.Parse("")` parses to the zero URL), and `httpClient.Do` then fails
at the transport because the zero URL has no scheme. -/
def c5GofetchClient : Gofetch.Client :=
  { encode := fun _ => .ok [123, 125],
    newRequest := fun _ _ => .ok (),
    dispatch := fun _ =>
      .error "Get : unsupported protocol scheme" }

/-- A gofetch descriptor on which no URL was set (`r.URL.String() = ""`)
but a body was. -/
def c5GofetchRequest : Gofetch.Request :=
  { Method := "GET", URL := "", Headers := Gofetch.defaultHeaders,
    Body := some 0, retries := 0, expectedStatusCode := 200,
    errDecode := fun _ => (0, none), respDecode := fun _ => (0, none) }

end ClaimC5

/-- C5 witness: the concrete URL-less gohans descriptor yields
`MissingURLError`, `nil` bytes, no encoding and no dispatch. -/
theorem c5_witness :
    Gohans.Client.Do c5Client c5Request =
      ⟨none, some .missingURL, false, false, none⟩ :=
  c5_missing_url_gohans c5Client c5Request rfl

/-- C5 counterexample: the claim is false on the gofetch variant
(`src/client.go` lines 73–87), which performs no URL validation — on a
descriptor with no URL set it encodes the body, builds the request, and
invokes the transport, returning the transport's scheme error rather than
`MissingURLError`. -/
theorem c5_gofetch_no_url_check :
    Gofetch.Client.Do c5GofetchClient c5GofetchRequest =
      ⟨none, some (.transportError "Get : unsupported protocol scheme"),
        true, true, none⟩ ∧
      (Gofetch.Client.Do c5GofetchClient c5GofetchRequest).err ≠
        some .missingURL ∧
      (Gofetch.Client.Do c5GofetchClient c5GofetchRequest).encoderInvoked =
        true := by
  decide

/-- C7: `decodeResponse` dispatches on the declared content type — a
`Content-Type` of `application/json` decodes the body as JSON, one of
`application/xml` decodes it as XML, and any other value, including an
absent `Content-Type` header (for which `Header.Get` yields the empty
string), fails with the unsupported-content-type error. -/
theorem c7_content_type_dispatch (jd xd : GoHTTP.Bytes → Option GoHTTP.GoError)
    (resp : Gohans.HResponse) :
    (GoHTTP.headerGet resp.headers "Content-Type" = "application/json" →
        Gohans.decodeResponse jd xd resp = jd resp.body) ∧
    (GoHTTP.headerGet resp.headers "Content-Type" = "application/xml" →
        Gohans.decodeResponse jd xd resp = xd resp.body) ∧
    (GoHTTP.headerGet resp.headers "Content-Type" ≠ "application/json" →
        GoHTTP.headerGet resp.headers "Content-Type" ≠ "application/xml" →
        Gohans.decodeResponse jd xd resp = some .invalidContentType) ∧
    (GoHTTP.headerLookup resp.headers "Content-Type" = none →
        Gohans.decodeResponse jd xd resp = some .invalidContentType) := by
  refine ⟨fun h => ?_, fun h => ?_, fun h1 h2 => ?_, fun h => ?_⟩
  · simp [Gohans.decodeResponse, h]
  · simp [Gohans.decodeResponse, h]
  · simp [Gohans.decodeResponse, h1, h2]
  · simp [Gohans.decodeResponse, GoHTTP.headerGet, h]

section ClaimC7

open GoHTTP Gohans

/-- The spec's literal content-type scenario: an XML response
`<struct><key>value</key></struct>` (its bytes are irrelevant to the
dispatch; only the header is examined). -/
def c7XmlResponse : Gohans.HResponse :=
  { headers := [("Content-Type", "application/xml")], body := [60, 62] }

/-- A response with an unrecognized content type. -/
def c7BadResponse : Gohans.HResponse :=
  { headers := [("Content-Type", "application/invalid")], body := [60, 62] }

/-- A response with no `Content-Type` header at all. -/
def c7NoCtResponse : Gohans.HResponse :=
  { headers := [("X-Other", "1")], body := [60, 62] }

/-- An XML decode behaviour that succeeds (the target has an XML-mapped
field matching the document). -/
def c7XmlDecoder : GoHTTP.Bytes → Option GoHTTP.GoError := fun _ => none

/-- A JSON decode behaviour that fails (the body is not JSON). -/
def c7JsonDecoder : GoHTTP.Bytes → Option GoHTTP.GoError :=
  fun _ => some (.jsonError "invalid character")

end ClaimC7

/-- C7 witness: the XML-headed response is dispatched to the XML decoder
(which succeeds), the unrecognized content type and the absent header both
yield the unsupported-content-type error. -/
theorem c7_witness :
    Gohans.decodeResponse c7JsonDecoder c7XmlDecoder c7XmlResponse = none ∧
      Gohans.decodeResponse c7JsonDecoder c7XmlDecoder c7BadResponse =
        some .invalidContentType ∧
      Gohans.decodeResponse c7JsonDecoder c7XmlDecoder c7NoCtResponse =
        some .invalidContentType := by
  refine ⟨?_, ?_, ?_⟩
  · exact (c7_content_type_dispatch c7JsonDecoder c7XmlDecoder
      c7XmlResponse).2.1 rfl
  · exact (c7_content_type_dispatch c7JsonDecoder c7XmlDecoder
      c7BadResponse).2.2.1 (by decide) (by decide)
  · exact (c7_content_type_dispatch c7JsonDecoder c7XmlDecoder
      c7NoCtResponse).2.2.2 rfl

/-- C9: the content-type dispatch matches by exact string equality — for
every response whose `Content-Type` header carries media-type parameters,
such as `application/json; charset=utf-8`, `decodeResponse` fails with the
unsupported-content-type error rather than decoding as JSON, whatever the
JSON decoder would have done with the body. -/
theorem c9_content_type_exact_match (jd xd : GoHTTP.Bytes → Option GoHTTP.GoError)
    (resp : Gohans.HResponse)
    (h : GoHTTP.headerGet resp.headers "Content-Type" =
      "application/json; charset=utf-8") :
    Gohans.decodeResponse jd xd resp = some .invalidContentType := by
  simp [Gohans.decodeResponse, h]

section ClaimC9

open GoHTTP Gohans

/-- A response declaring `application/json; charset=utf-8` whose body is
the valid JSON object of `c3Body`'s head (`[123, 125]` = an empty object),
paired below with a JSON decoder that would succeed on it. -/
def c9Response : Gohans.HResponse :=
  { headers := [("Content-Type", "application/json; charset=utf-8")],
    body := [123, 125] }

end ClaimC9

/-- C9 witness: even with a JSON decoder that succeeds on the (valid JSON)
body, the parameterised content type is rejected. -/
theorem c9_witness :
    Gohans.decodeResponse (fun _ => none) c7XmlDecoder c9Response =
      some .invalidContentType :=
  c9_content_type_exact_match (fun _ => none) c7XmlDecoder c9Response rfl

/-- C8 (amended): for every successful `TLSConfig` call (non-empty cert and
key paths, readable and parsable material), both variants carry
`insecureSkipVerify` exactly as supplied and pin a renegotiation policy
(`RenegotiateOnceAsClient` in gohans, `RenegotiateNever` in gofetch), but
only the gohans variant (`src/tls.go`) pins a minimum protocol version
(TLS 1.2); the gofetch variant (`src/unnamed/part_003`) leaves `MinVersion`
at its zero value, pinning none. -/
theorem c8_tls_config_fields (fs : GoHTTP.FS) (ca cert key : String)
    (ins : Bool) :
    (∀ conf, Gohans.TLSConfig fs ca cert key ins = .ok conf →
        conf.insecureSkipVerify = ins ∧
          conf.renegotiation = .renegotiateOnceAsClient ∧
          conf.minVersion = GoHTTP.versionTLS12) ∧
    (∀ conf, Gofetch.TLSConfig fs ca cert key ins = .ok conf →
        conf.insecureSkipVerify = ins ∧
          conf.renegotiation = .renegotiateNever ∧
          conf.minVersion = 0) := by
  constructor
  · intro conf h
    by_cases hkc : key = "" ∨ cert = ""
    · simp [Gohans.TLSConfig, hkc] at h
    · push_neg at hkc
      obtain ⟨hk, hc⟩ := hkc
      by_cases hca : ca = ""
      · cases hlp : fs.loadX509KeyPair cert key with
        | error m => simp [Gohans.TLSConfig, hk, hc, hca, hlp] at h
        | ok u =>
          simp [Gohans.TLSConfig, hk, hc, hca, hlp] at h
          simp [← h]
      · cases hrf : fs.readFile ca with
        | error m => simp [Gohans.TLSConfig, hk, hc, hca, hrf] at h
        | ok pem =>
          cases hap : fs.appendCertsFromPEM pem with
          | false => simp [Gohans.TLSConfig, hk, hc, hca, hrf, hap] at h
          | true =>
            cases hlp : fs.loadX509KeyPair cert key with
            | error m =>
              simp [Gohans.TLSConfig, hk, hc, hca, hrf, hap, hlp] at h
            | ok u =>
              simp [Gohans.TLSConfig, hk, hc, hca, hrf, hap, hlp] at h
              simp [← h]
  · intro conf h
    by_cases hkc : key = "" ∨ cert = ""
    · simp [Gofetch.TLSConfig, hkc] at h
    · push_neg at hkc
      obtain ⟨hk, hc⟩ := hkc
      by_cases hca : ca = ""
      · cases hlp : fs.loadX509KeyPair cert key with
        | error m => simp [Gofetch.TLSConfig, hk, hc, hca, hlp] at h
        | ok u =>
          simp [Gofetch.TLSConfig, hk, hc, hca, hlp] at h
          simp [← h]
      · cases hrf : fs.readFile ca with
        | error m => simp [Gofetch.TLSConfig, hk, hc, hca, hrf] at h
        | ok pem =>
          cases hap : fs.appendCertsFromPEM pem with
          | false => simp [Gofetch.TLSConfig, hk, hc, hca, hrf, hap] at h
          | true =>
            cases hlp : fs.loadX509KeyPair cert key with
            | error m =>
              simp [Gofetch.TLSConfig, hk, hc, hca, hrf, hap, hlp] at h
            | ok u =>
              simp [Gofetch.TLSConfig, hk, hc, hca, hrf, hap, hlp] at h
              simp [← h]

section ClaimC8

open GoHTTP

/-- A file system on which every read, PEM parse and keypair load
succeeds. -/
def c8FS : GoHTTP.FS :=
  { readFile := fun _ => .ok [1],
    appendCertsFromPEM := fun _ => true,
    loadX509KeyPair := fun _ _ => .ok () }

/-- The configuration a successful gohans `TLSConfig` call with a CA
produces. -/
def c8GohansConf : GoHTTP.TLSConf :=
  { insecureSkipVerify := true, renegotiation := .renegotiateOnceAsClient,
    minVersion := GoHTTP.versionTLS12, rootCAsSet := true, certCount := 1 }

end ClaimC8

/-- C8 witness: a concrete successful call of each variant, with the
amended field facts extracted from the theorem. -/
theorem c8_witness :
    (c8GohansConf.insecureSkipVerify = true ∧
      c8GohansConf.renegotiation = .renegotiateOnceAsClient ∧
      c8GohansConf.minVersion = GoHTTP.versionTLS12) ∧
    (GoHTTP.TLSConf.insecureSkipVerify
        ⟨true, .renegotiateNever, 0, true, 1⟩ = true ∧
      GoHTTP.TLSConf.renegotiation
        ⟨true, .renegotiateNever, 0, true, 1⟩ = .renegotiateNever ∧
      GoHTTP.TLSConf.minVersion ⟨true, .renegotiateNever, 0, true, 1⟩ = 0) :=
  ⟨(c8_tls_config_fields c8FS "/tmp/ca.crt" "/tmp/cert.crt" "/tmp/key.key"
      true).1 c8GohansConf rfl,
    (c8_tls_config_fields c8FS "/tmp/ca.crt" "/tmp/cert.crt" "/tmp/key.key"
      true).2 ⟨true, .renegotiateNever, 0, true, 1⟩ rfl⟩

/-- C8 counterexample: the claim is false as stated — a successful gofetch
`TLSConfig` call returns a configuration whose `MinVersion` is the zero
value, i.e. no minimum protocol version is pinned (while TLS 1.2 pinning
is `versionTLS12 = 771`). -/
theorem c8_gofetch_min_version_unpinned :
    Gofetch.TLSConfig c8FS "" "/tmp/cert.crt" "/tmp/key.key" true =
      .ok ⟨true, .renegotiateNever, 0, false, 1⟩ ∧
      (0 : Nat) ≠ GoHTTP.versionTLS12 :=
  ⟨rfl, by decide⟩
